import Mathlib

/-!
Shallow embedding of the widget identity and state-reconciliation runtime of
the repository (streamlit fork: `lib/streamlit/widgets.py`,
`lib/streamlit/session.py`, `lib/streamlit/elements/*.py`), together with
proofs settling the frozen claims about it.

Conventions of the embedding:
* Python values flowing through the session/widget machinery are modelled by
  `PyVal`; the Python `None` object is the constructor `PyVal.none`.
* Python dicts with string keys are insertion-ordered association lists
  (`Dict`), with `dget` / `dinsert` / `dremove` / `dmerge` mirroring lookup,
  `d[k] = v`, `del d[k]` and `{**a, **b}`.
* Stateful fallible methods return the raised exception (if any) together
  with the post-state, so that partial mutation before a raise is observable.
* Protobuf messages are structures holding the fields the sources touch; the
  `json_value` variant of `WidgetState` (decoded via `json.loads`) is not
  exercised by any claim and is outside the modelled fragment.
-/

/-- A Python value as handled by the session/widget state machinery.
`PyVal.none` is the Python `None` object. -/
inductive PyVal where
  | none
  | bool (b : Bool)
  | int (n : Int)
  | str (s : String)
  deriving DecidableEq

/-- The populated one-of variant of a `WidgetState` protobuf
(`WidgetStates_pb2.WidgetState`); exactly one variant is set.
The `json_value` variant is outside the modelled fragment (no claim uses it). -/
inductive WValue where
  | trigger_value (b : Bool)
  | bool_value (b : Bool)
  | int_value (n : Int)
  | string_value (s : String)
  deriving DecidableEq

/-- `state.WhichOneof("value")`: the name of the populated variant. -/
def WValue.whichOneof : WValue → String
  | .trigger_value _ => "trigger_value"
  | .bool_value _ => "bool_value"
  | .int_value _ => "int_value"
  | .string_value _ => "string_value"

/-- One client-submitted State Record (`WidgetState` proto): widget id plus
the populated value variant. -/
structure WidgetState where
  id : String
  value : WValue
  deriving DecidableEq

/-- `state.trigger_value`: protobuf field access, returning the field when the
`trigger_value` variant is set and the protobuf default `False` otherwise. -/
def WidgetState.trigger_value (s : WidgetState) : Bool :=
  match s.value with
  | .trigger_value b => b
  | _ => false

/-- A Python dict with string keys, as an insertion-ordered association list. -/
abbrev Dict (α : Type) : Type := List (String × α)

/-- Python dict lookup `d.get(k)`. -/
def dget {α : Type} : Dict α → String → Option α
  | [], _ => Option.none
  | p :: d, k => if p.1 = k then some p.2 else dget d k

/-- Python dict assignment `d[k] = v`: overwrite in place if the key exists
(keeping its position), append otherwise. -/
def dinsert {α : Type} : Dict α → String → α → Dict α
  | [], k, v => [(k, v)]
  | p :: d, k, v => if p.1 = k then (k, v) :: d else p :: dinsert d k v

/-- Python `del d[k]` (presence is the caller's concern). -/
def dremove {α : Type} : Dict α → String → Dict α
  | [], _ => []
  | p :: d, k => if p.1 = k then d else p :: dremove d k

/-- The key list of a dict, in insertion order (`iter(d)`). -/
def dkeys {α : Type} (d : Dict α) : List String := d.map Prod.fst

/-- Python dict merge `{**a, **b}`: start from `a`, write every entry of `b`. -/
def dmerge {α : Type} (a b : Dict α) : Dict α :=
  b.foldl (fun d p => dinsert d p.1 p.2) a

/-- Lookup of a widget id in a State Record batch (`list` of `WidgetState`). -/
def wlookup : List WidgetState → String → Option WidgetState
  | [], _ => Option.none
  | s :: l, i => if s.id = i then some s else wlookup l i

/-- One iteration step of the second loop of `coalesce_widget_states`
(widgets.py lines 110-121): if `old_state` is a true trigger and the entry
already recorded for its id is also of trigger kind, overwrite that entry
with `old_state`. -/
def coalesceStep (d : Dict WidgetState) (old_state : WidgetState) : Dict WidgetState :=
  if old_state.value.whichOneof = "trigger_value" ∧ old_state.trigger_value = true then
    match dget d old_state.id with
    | some new_trigger_val =>
      if new_trigger_val.value.whichOneof = "trigger_value" then
        dinsert d old_state.id old_state
      else d
    | Option.none => d
  else d

/-- `coalesce_widget_states(old_states, new_states)` (widgets.py lines 94-126):
key the new batch by id, revive true triggers from the old batch whose new
entry is still of trigger kind, return the values. -/
def coalesce_widget_states (old_states new_states : List WidgetState) : List WidgetState :=
  let states_by_id : Dict WidgetState :=
    new_states.foldl (fun d new_state => dinsert d new_state.id new_state) []
  let states_by_id := old_states.foldl coalesceStep states_by_id
  states_by_id.map Prod.snd

/-- The `Args` dataclass of widgets.py: captured positional and keyword
arguments for a callback. -/
structure Args where
  args : Option (List PyVal) := Option.none
  kwargs : Option (Dict PyVal) := Option.none

/-- The per-session Widget State Store (`WidgetStateManager` of widgets.py).
Callbacks are identified by an opaque token name; deserializers are the
functions themselves. The field `_state` models the attribute that
`cull_nonexistent` reads: no method of the class (in particular not
`__init__`) ever assigns it, so it is `Option.none` on every reachable
instance and reading it raises `AttributeError`. -/
structure WidgetStateManager where
  _widget_states : Dict WidgetState
  _previous_widget_states : Dict WidgetState
  _widget_callbacks : Dict String
  _widget_deserializers : Dict (PyVal → PyVal)
  _widget_args : Dict Args
  _state : Option (Dict WidgetState)

/-- `WidgetStateManager.__init__` (widgets.py lines 136-141). It assigns the
five `_widget_*` dicts and nothing else; `_state` is never created. -/
def WidgetStateManager.init : WidgetStateManager :=
  { _widget_states := [], _previous_widget_states := [], _widget_callbacks := [],
    _widget_deserializers := [], _widget_args := [], _state := Option.none }

/-- `_get_widget_value(state)` (widgets.py lines 252-261): `None` for a
missing record, the populated variant's value otherwise. -/
def _get_widget_value : Option WidgetState → PyVal
  | Option.none => PyVal.none
  | some state =>
    match state.value with
    | .trigger_value b => PyVal.bool b
    | .bool_value b => PyVal.bool b
    | .int_value n => PyVal.int n
    | .string_value s => PyVal.str s

/-- `get_widget_value` (widgets.py lines 146-149). -/
def WidgetStateManager.get_widget_value (m : WidgetStateManager) (widget_id : String) : PyVal :=
  _get_widget_value (dget m._widget_states widget_id)

/-- `get_previous_widget_value` (widgets.py lines 151-154). -/
def WidgetStateManager.get_previous_widget_value (m : WidgetStateManager)
    (widget_id : String) : PyVal :=
  _get_widget_value (dget m._previous_widget_states widget_id)

/-- `set_state` (widgets.py lines 156-161): current becomes previous, the
incoming batch keyed by id becomes current. -/
def WidgetStateManager.set_state (m : WidgetStateManager)
    (widget_states : List WidgetState) : WidgetStateManager :=
  { m with
    _previous_widget_states := m._widget_states,
    _widget_states := widget_states.foldl (fun d w => dinsert d w.id w) [] }

/-- `add_callback` (widgets.py lines 163-176). -/
def WidgetStateManager.add_callback (m : WidgetStateManager) (widget_id : String)
    (deserializer : PyVal → PyVal) (callback : String)
    (args : Option (List PyVal) := Option.none)
    (kwargs : Option (Dict PyVal) := Option.none) : WidgetStateManager :=
  { m with
    _widget_callbacks := dinsert m._widget_callbacks widget_id callback,
    _widget_deserializers := dinsert m._widget_deserializers widget_id deserializer,
    _widget_args := dinsert m._widget_args widget_id ⟨args, kwargs⟩ }

/-- `add_deserializer` (widgets.py lines 202-205). -/
def WidgetStateManager.add_deserializer (m : WidgetStateManager) (widget_id : String)
    (deserializer : PyVal → PyVal) : WidgetStateManager :=
  { m with _widget_deserializers := dinsert m._widget_deserializers widget_id deserializer }

/-- `equivalent_values(new_state)` (widgets.py lines 207-216): compare the
previous record's decoded value with the batch entry's, through the
registered deserializer when one exists. -/
def WidgetStateManager.equivalent_values (m : WidgetStateManager)
    (new_state : WidgetState) : Bool :=
  let old_value := m.get_previous_widget_value new_state.id
  let new_value := _get_widget_value (some new_state)
  match dget m._widget_deserializers new_state.id with
  | some deserializer => decide (deserializer new_value = deserializer old_value)
  | Option.none => decide (new_value = old_value)

/-- One observable callback invocation emitted by `call_callbacks`: which
widget fired, the callback token, and the arguments it was called with. -/
structure CallbackInvocation where
  widget_id : String
  callback : String
  args : List PyVal
  kwargs : Dict PyVal
  deriving DecidableEq

/-- `call_callbacks(new_widget_states)` (widgets.py lines 181-200), with the
invocations made observable as a trace in batch order: skip entries without
a registered callback, skip entries with equivalent values, otherwise invoke
with the captured `Args` (empty tuple and dict when a component is `None`,
bare call when no `Args` entry exists). -/
def WidgetStateManager.call_callbacks (m : WidgetStateManager)
    (new_widget_states : List WidgetState) : List CallbackInvocation :=
  new_widget_states.filterMap (fun new_state =>
    match dget m._widget_callbacks new_state.id with
    | Option.none => Option.none
    | some callback =>
      if m.equivalent_values new_state then Option.none
      else
        match dget m._widget_args new_state.id with
        | some arg => some ⟨new_state.id, callback, arg.args.getD [], arg.kwargs.getD []⟩
        | Option.none => some ⟨new_state.id, callback, [], []⟩)

/-- Exceptions raised by the modelled code paths. -/
inductive PyError where
  | keyError (key : String)
  | attributeError (name : String)
  | runtimeError (msg : String)
  | typeError (msg : String)
  | streamlitAPIException (msg : String)
  | duplicateWidgetID (msg : String)
  deriving DecidableEq

/-- `cull_nonexistent(widget_ids)` (widgets.py lines 228-232). The method
body filters `self._state`, an attribute that no method of the class ever
assigns (`__init__` creates only the `_widget_*` dicts), so on every
reachable instance the read raises `AttributeError` and `_widget_states` is
left untouched. -/
def WidgetStateManager.cull_nonexistent (m : WidgetStateManager)
    (widget_ids : List String) : Option PyError × WidgetStateManager :=
  match m._state with
  | Option.none => (some (.attributeError "_state"), m)
  | some s =>
    (Option.none, { m with _state := some (s.filter (fun p => decide (p.1 ∈ widget_ids))) })

/-- The per-session Session State (`session.py`): a pending generation
(`_new_state`, writes of the current run) and a committed generation
(`_old_state`, writes of prior runs). -/
structure SessionState where
  _new_state : Dict PyVal
  _old_state : Dict PyVal

/-- `SessionState.__init__` (session.py lines 26-44): both generations empty. -/
def SessionState.init : SessionState :=
  { _new_state := [], _old_state := [] }

/-- The per-run report context (`report_thread.ReportContext`, whose module is
not among the excerpted sources). It carries the per-run seen-ID set
`widget_ids_this_run`, the session's Widget State Store, and the session's
Session State object (reached in the source through
`Server.get_current().get_session_by_id(ctx.session_id)`). -/
structure ReportCtx where
  widget_ids_this_run : List String
  widgets : WidgetStateManager
  session_state : SessionState

/-- Modelled from the spec: `ctx.widget_ids_this_run.add(widget_id)`. The set
class lives in `streamlit.report_thread`, which is not part of the excerpted
sources; §4.3 of the spec describes it as a per-run set of already-seen
widget IDs whose `add` reports whether the ID was newly added (the duplicate
check branches on that report). -/
def setAdd (s : List String) (x : String) : Bool × List String :=
  if x ∈ s then (false, s) else (true, s ++ [x])

/-- A 64-bit-truncated rolling model of Python's in-process `hash` of the
tuple `(element_type, element_proto.SerializeToString())`. Python string
hashing is randomized per process but deterministic within one; no theorem
relies on anything beyond this being a function. -/
def pyHash (element_type serialized : String) : Int :=
  Int.ofNat
    ((element_type.data ++ serialized.data).foldl
      (fun h c => (h * 1000003 + c.toNat) % (2 ^ 61 - 1)) 7)

/-- A widget declaration payload (`element_proto`): the protobuf message the
registrar receives. `label := Option.none` models a proto class without a
`label` attribute (`hasattr(element_proto, "label")` false); `serialized`
models `SerializeToString()` of the declaration content at registration
time. `id` is written back by the registrar. -/
structure ElementProto where
  id : String := ""
  label : Option String := Option.none
  serialized : String := ""
  deriving DecidableEq

/-- `_get_widget_id(element_type, element_proto, user_key)` (elements/utils.py
lines 68-81; widgets.py delegates to the same function): the user key when
given, otherwise `str(hash((element_type, element_proto.SerializeToString())))`. -/
def _get_widget_id (element_type : String) (element_proto : ElementProto)
    (user_key : Option String) : String :=
  match user_key with
  | some k => k
  | Option.none => toString (pyHash element_type element_proto.serialized)

/-- `_build_duplicate_widget_message(widget_func_name, user_key)`
(widgets.py lines 304-332 and its copy in elements/utils.py lines 37-65):
the dedented, stripped and formatted error text. The explicit-key text names
the colliding key and asks for unique keys; the generated-ID text explains
structural key generation and asks for an explicit key. -/
def _build_duplicate_widget_message (widget_func_name : String)
    (user_key : Option String) : String :=
  match user_key with
  | some k =>
    "There are multiple identical `st." ++ widget_func_name ++ "` widgets with\n" ++
    "`key=\x27" ++ k ++ "\x27`.\n\n" ++
    "To fix this, please make sure that the `key` argument is unique for\n" ++
    "each `st." ++ widget_func_name ++ "` you create."
  | Option.none =>
    "There are multiple identical `st." ++ widget_func_name ++ "` widgets with the\n" ++
    "same generated key.\n\n" ++
    "When a widget is created, it\x27s assigned an internal key based on\n" ++
    "its structure. Multiple widgets with an identical structure will\n" ++
    "result in the same internal key, which causes this error.\n\n" ++
    "To fix this error, please pass a unique `key` argument to\n" ++
    "`st." ++ widget_func_name ++ "`."

/-- Result of `register_widget` from widgets.py: the raised error if any, the
mutated context, the payload with its id written back, and the returned
`ui_value` (`None` both on the no-context early-out and, unobservably, on a
raise). -/
structure RegisterResult where
  err : Option PyError
  ctx : Option ReportCtx
  element_proto : ElementProto
  ui_value : PyVal

/-- `register_widget(element_type, element_proto, user_key, widget_func_name)`
(widgets.py lines 37-91): compute the id, write it onto the payload,
early-out without a context, duplicate-check against the per-run seen-ID
set, and return the stored value for the id. -/
def register_widget (element_type : String) (element_proto : ElementProto)
    (user_key : Option String) (widget_func_name : Option String)
    (ctx : Option ReportCtx) : RegisterResult :=
  let widget_id := _get_widget_id element_type element_proto user_key
  let element_proto := { element_proto with id := widget_id }
  match ctx with
  | Option.none => ⟨Option.none, Option.none, element_proto, PyVal.none⟩
  | some c =>
    let (added, ids) := setAdd c.widget_ids_this_run widget_id
    let c := { c with widget_ids_this_run := ids }
    if added = false then
      ⟨some (.duplicateWidgetID (_build_duplicate_widget_message
          (widget_func_name.getD element_type) user_key)),
       some c, element_proto, PyVal.none⟩
    else
      ⟨Option.none, some c, element_proto, c.widgets.get_widget_value widget_id⟩

/-- Result of `register_widget` from elements/utils.py. -/
structure URegisterResult where
  err : Option PyError
  ctx : Option ReportCtx
  element_proto : ElementProto
  ret : PyVal

/-- `register_widget` from elements/utils.py (lines 84-160). Without a user
key, the payload's `label` attribute, when present, is used as the key (and
hence as the widget id); only a payload without a `label` attribute falls
through to the hash. After registering the callback or deserializer the
source calls `ctx.widgets.add_signal(...)` whenever `key` is not `None`;
`WidgetStateManager` defines no such method, which is modelled as the
corresponding `AttributeError`. -/
def Utils.register_widget (element_type : String) (element_proto : ElementProto)
    (user_key : Option String) (widget_func_name : Option String)
    (on_change_handler : Option String)
    (deserializer : PyVal → PyVal) (ctx : Option ReportCtx) : URegisterResult :=
  let key : Option String :=
    match user_key with
    | some k => some k
    | Option.none =>
      match element_proto.label with
      | some l => some l
      | Option.none => Option.none
  let widget_id := _get_widget_id element_type element_proto key
  let element_proto := { element_proto with id := widget_id }
  match ctx with
  | Option.none => ⟨Option.none, Option.none, element_proto, deserializer PyVal.none⟩
  | some c =>
    let (added, ids) := setAdd c.widget_ids_this_run widget_id
    let c := { c with widget_ids_this_run := ids }
    if added = false then
      ⟨some (.duplicateWidgetID (_build_duplicate_widget_message
          (widget_func_name.getD element_type) user_key)),
       some c, element_proto, PyVal.none⟩
    else
      let widgets :=
        match on_change_handler with
        | some cb => c.widgets.add_callback element_proto.id deserializer cb
        | Option.none => c.widgets.add_deserializer element_proto.id deserializer
      let c := { c with widgets := widgets }
      match key with
      | some _ => ⟨some (.attributeError "add_signal"), some c, element_proto, PyVal.none⟩
      | Option.none =>
        ⟨Option.none, some c, element_proto,
         deserializer (c.widgets.get_widget_value widget_id)⟩

/-- `beta_widget_value(key)` (widgets.py lines 264-286): `None` without a
context; otherwise look the key up as a widget id (`_get_widget_id("", None,
key)` with a non-None key reduces to `key`), returning `None` for a missing
record and the registered deserializer (identity by default) applied to the
stored value otherwise. -/
def beta_widget_value (ctx : Option ReportCtx) (key : String) : PyVal :=
  match ctx with
  | Option.none => PyVal.none
  | some c =>
    let widget_id := key
    let deserializer := (dget c.widgets._widget_deserializers widget_id).getD (fun x => x)
    let widget_value := c.widgets.get_widget_value widget_id
    if widget_value = PyVal.none then PyVal.none else deserializer widget_value

/-- `widget_values()` (widgets.py lines 289-301): the raw current
widget-state dict of the session's store, `None` without a context. -/
def widget_values (ctx : Option ReportCtx) : Option (Dict WidgetState) :=
  match ctx with
  | Option.none => Option.none
  | some c => some c.widgets._widget_states

/-- A value of the heterogeneous merged dict built by
`SessionState._get_merged`: committed and pending entries hold application
values, the widget layer holds the raw `WidgetState` records. -/
inductive MergedVal where
  | sessionVal (v : PyVal)
  | widgetState (w : WidgetState)
  deriving DecidableEq

/-- `SessionState._get_merged` (session.py lines 58-61):
`{**self._old_state, **widget_values(), **self._new_state}`. Without a
context `widget_values()` is `None` and the starred merge raises, modelled
as `Option.none`. -/
def SessionState._get_merged (st : SessionState) (ctx : Option ReportCtx) :
    Option (Dict MergedVal) :=
  match widget_values ctx with
  | Option.none => Option.none
  | some ws =>
    some (dmerge
      (dmerge (st._old_state.map (fun p => (p.1, MergedVal.sessionVal p.2)))
        (ws.map (fun p => (p.1, MergedVal.widgetState p.2))))
      (st._new_state.map (fun p => (p.1, MergedVal.sessionVal p.2))))

/-- `SessionState.__len__` (session.py lines 63-65). -/
def SessionState.__len__ (st : SessionState) (ctx : Option ReportCtx) : Option Nat :=
  (st._get_merged ctx).map List.length

/-- `SessionState.__iter__` (session.py lines 67-69): iteration over the
merged dict yields its keys in order. -/
def SessionState.__iter__ (st : SessionState) (ctx : Option ReportCtx) :
    Option (List String) :=
  (st._get_merged ctx).map dkeys

/-- `SessionState.__getitem__` (session.py lines 102-113): the pending value
when present; otherwise the live widget value when `beta_widget_value` is
not `None`; otherwise the committed value; otherwise `KeyError`. -/
def SessionState.__getitem__ (st : SessionState) (ctx : Option ReportCtx)
    (key : String) : Except PyError PyVal :=
  match dget st._new_state key with
  | some v => .ok v
  | Option.none =>
    let value := beta_widget_value ctx key
    if value ≠ PyVal.none then .ok value
    else
      match dget st._old_state key with
      | some v => .ok v
      | Option.none => .error (.keyError key)

/-- `SessionState.get(key, default)`: the `MutableMapping` mixin method,
`self[key]` with the `KeyError` replaced by the default. -/
def SessionState.get (st : SessionState) (ctx : Option ReportCtx) (key : String)
    (default : PyVal) : PyVal :=
  match st.__getitem__ ctx key with
  | .ok v => v
  | .error _ => default

/-- `SessionState.__setitem__` (session.py lines 115-121): refuse keys that
are widget ids already registered this run, otherwise write to the pending
generation. Without a context the attribute access on `None` raises. -/
def SessionState.__setitem__ (st : SessionState) (ctx : Option ReportCtx)
    (key : String) (value : PyVal) : Option PyError × SessionState :=
  match ctx with
  | Option.none => (some (.attributeError "widget_ids_this_run"), st)
  | some c =>
    if key ∈ c.widget_ids_this_run then
      (some (.streamlitAPIException
        "Setting the value of a widget after its creation is disallowed"), st)
    else
      (Option.none, { st with _new_state := dinsert st._new_state key value })

/-- `SessionState.__delitem__` (session.py lines 71-73): `del` on the pending
generation, then `del` on the committed generation; each raises `KeyError`
on a missing key, and a raise from the second leaves the first deletion in
place. -/
def SessionState.__delitem__ (st : SessionState) (v : String) :
    Option PyError × SessionState :=
  match dget st._new_state v with
  | Option.none => (some (.keyError v), st)
  | some _ =>
    let st := { st with _new_state := dremove st._new_state v }
    match dget st._old_state v with
    | Option.none => (some (.keyError v), st)
    | some _ => (Option.none, { st with _old_state := dremove st._old_state v })

/-- `make_state_old` (session.py lines 123-125):
`self._old_state.update(self._new_state); self._new_state.clear()`. -/
def SessionState.make_state_old (st : SessionState) : SessionState :=
  { _old_state := dmerge st._old_state st._new_state, _new_state := [] }

/-- `is_new_value(key)` (session.py lines 127-128): membership in the pending
generation. -/
def SessionState.is_new_value (st : SessionState) (key : String) : Bool :=
  (dget st._new_state key).isSome

/-- Python `str(value)` for the modelled value shapes. -/
def pyStr : PyVal → String
  | .none => "None"
  | .bool true => "True"
  | .bool false => "False"
  | .int n => toString n
  | .str s => s

/-- Python `bool(value)` (truthiness) for the modelled value shapes. -/
def pyBool : PyVal → Bool
  | .none => false
  | .bool b => b
  | .int n => decide (n ≠ 0)
  | .str s => decide (s ≠ "")

/-- The ambient script-execution environment seen by a widget declaration
function: the `streamlit._is_running_with_streamlit` flag, the form scope,
and the report context (holding seen-ID set, Widget State Store and Session
State). `in_form` and `form_id` are modelled from the spec: `is_in_form` and
`current_form_id` come from `elements/form.py`, which is not among the
excerpted sources; §3 describes the Form Scope as a boolean context that is
true while declarations are lexically inside a form block, with its id. -/
structure ScriptEnv where
  is_running_with_streamlit : Bool
  in_form : Bool
  form_id : String
  ctx : Option ReportCtx

/-- The registration call made by the element declaration functions
(text_widgets.py line 141, checkbox.py line 101). Both modules import
`register_widget` from `streamlit.widgets` (text_widgets.py line 22,
checkbox.py line 20), and that in-src definition (widgets.py lines 37-42)
accepts only `(element_type, element_proto, user_key, widget_func_name)`.
The call sites additionally pass the keywords `on_change_handler`, `args`,
`kwargs` and `deserializer`, so Python raises a `TypeError` for the
unexpected keyword argument at the call itself, before the function body
runs: nothing is registered, the per-run seen-ID set and the Widget State
Store are untouched, and the declaration never returns. The parameters
record what the call site passes; none of them is consumed. -/
def element_register_call (_element_type : String) (_user_key : Option String)
    (_widget_id : String) (_on_change_handler : Option String)
    (_args : Option (List PyVal)) (_kwargs : Option (Dict PyVal))
    (_deserializer : PyVal → PyVal) (c : ReportCtx) :
    Option PyError × ReportCtx × PyVal :=
  (some (.typeError "register_widget() got an unexpected keyword argument"),
   c, PyVal.none)

/-- The `TextInput` protobuf fields that `text_input` writes. `value` is kept
as a `PyVal` so that exactly what the source assigns is recorded; the
protobuf string-typing of the field is not modelled. An unset `value` is
`PyVal.none` with `valueSet := false`. -/
structure TextInputProto where
  id : String := ""
  label : String := ""
  default : String := ""
  form_id : String := ""
  help : Option String := Option.none
  max_chars : Option Int := Option.none
  isPassword : Bool := false
  value : PyVal := PyVal.none
  valueSet : Bool := false
  deriving DecidableEq

/-- Value resolution of `text_input` (text_widgets.py lines 96-110), with the
two reads (`beta_widget_value(key)` and `state.get(key, None)`) passed in by
the caller; both are effect-free, so evaluating them eagerly is faithful.
Inside a form: the buffered widget value if present, else the caller value,
else the built-in default `""`. Outside: the Session State value if
present, else the caller value, else `""`. -/
def resolve_text_value (in_form : Bool) (widget_v state_v value : PyVal) : PyVal :=
  if in_form then
    if widget_v ≠ PyVal.none then widget_v
    else if value = PyVal.none then PyVal.str "" else value
  else
    if state_v = PyVal.none then
      (if value = PyVal.none then PyVal.str "" else value)
    else state_v

/-- Result of a `text_input` declaration: raised error if any, whether the
undefined-precedence warning was emitted, the post-call context, the built
payload (meaningful only when no error was raised before it was filled),
and the returned value. -/
structure TextInputResult where
  err : Option PyError := Option.none
  warned : Bool := false
  ctx : Option ReportCtx := Option.none
  proto : TextInputProto := {}
  ret : Option PyVal := Option.none

/-- `TextWidgetsMixin.text_input` (text_widgets.py lines 27-151).
`value = PyVal.none` is the `value=None` default. The declaration:
form/callback guard; key defaulting; `force_set_value` derivation;
undefined-precedence warning; value resolution; the immediate
`state[key] = value` write; payload construction (including the
`force_set_value` override); then the `register_widget` call at line 141,
which raises `TypeError` (see `element_register_call`), so the enqueue and
`return value` at lines 150-151 are unreachable and the declaration always
ends in that raise, with the payload never given its id (widgets.py line 70
never runs). -/
def text_input (env : ScriptEnv) (label : String) (value : PyVal)
    (max_chars : Option Int) (key : Option String) (type : String)
    (on_change : Option String) (args : Option (List PyVal))
    (kwargs : Option (Dict PyVal)) (help : Option String) : TextInputResult :=
  if env.is_running_with_streamlit && env.in_form && on_change.isSome then
    { err := some (.streamlitAPIException "") }
  else
    let key := key.getD ("internal:text_input:" ++ label)
    match env.ctx with
    | Option.none =>
      { err := some (.runtimeError "We were unable to retrieve your Streamlit session.") }
    | some c =>
      let state := c.session_state
      let force_set_value := state.is_new_value key && !env.in_form
      let warned := value ≠ PyVal.none && state.is_new_value key
        && beta_widget_value (some c) key = PyVal.none
      let value := resolve_text_value env.in_form (beta_widget_value (some c) key)
        (state.get (some c) key PyVal.none) value
      match state.__setitem__ (some c) key value with
      | (some e, _) => { err := some e, warned := warned, ctx := some c }
      | (Option.none, state) =>
        let c := { c with session_state := state }
        let proto : TextInputProto :=
          { label := label, default := pyStr value, form_id := env.form_id,
            help := help, max_chars := max_chars }
        if type ≠ "default" ∧ type ≠ "password" then
          { err := some (.streamlitAPIException (type ++
              " is not a valid text_input type. Valid types are default and password.")),
            warned := warned, ctx := some c, proto := proto }
        else
          let proto := { proto with isPassword := type = "password" }
          let proto :=
            if force_set_value then { proto with value := value, valueSet := true }
            else proto
          let deserialize_text_input : PyVal → PyVal := fun ui_value =>
            if ui_value ≠ PyVal.none then ui_value else PyVal.str (pyStr value)
          match element_register_call "text_input" (some key) key on_change args kwargs
            deserialize_text_input c with
          | (e, c, _) =>
            { err := e, warned := warned, ctx := some c, proto := proto,
              ret := Option.none }

/-- The `Checkbox` protobuf fields that `checkbox` writes. An unset `value`
is `false` with `valueSet := false`. -/
structure CheckboxProto where
  id : String := ""
  label : String := ""
  default : Bool := false
  form_id : String := ""
  help : Option String := Option.none
  value : Bool := false
  valueSet : Bool := false
  deriving DecidableEq

/-- Result of a `checkbox` declaration. -/
structure CheckboxResult where
  err : Option PyError := Option.none
  ctx : Option ReportCtx := Option.none
  proto : CheckboxProto := {}
  ret : Option Bool := Option.none

/-- `CheckboxMixin.checkbox` (checkbox.py lines 26-111), for declarations
that pass a key (the `key=None` path stores the Python `None` object as a
Session State key and is outside the modelled string-keyed fragment).
Note the differences from `text_input`: `force_set_value` is
`value is not None or state.is_new_value(key)` with no form-scope conjunct,
there is no key defaulting, and the `state[key] = value` write happens
before the `bool(value)` cast. Like `text_input`, the declaration ends in
the `TypeError` raised by its `register_widget` call at line 101 (see
`element_register_call`); lines 110-111 are unreachable. -/
def checkbox (env : ScriptEnv) (label : String) (value : PyVal) (key : String)
    (on_change : Option String) (args : Option (List PyVal))
    (kwargs : Option (Dict PyVal)) (help : Option String) : CheckboxResult :=
  if env.is_running_with_streamlit && env.in_form && on_change.isSome then
    { err := some (.streamlitAPIException "") }
  else
    match env.ctx with
    | Option.none =>
      { err := some (.runtimeError "We were unable to retrieve your Streamlit session.") }
    | some c =>
      let state := c.session_state
      let force_set_value := value ≠ PyVal.none || state.is_new_value key
      let value := if value = PyVal.none then state.get (some c) key PyVal.none else value
      let value := if value = PyVal.none then PyVal.bool false else value
      match state.__setitem__ (some c) key value with
      | (some e, _) => { err := some e, ctx := some c }
      | (Option.none, state) =>
        let c := { c with session_state := state }
        let value := pyBool value
        let proto : CheckboxProto :=
          { label := label, default := value, form_id := env.form_id, help := help }
        let proto :=
          if force_set_value then { proto with value := value, valueSet := true }
          else proto
        let deserialize_checkbox : PyVal → PyVal := fun ui_value =>
          PyVal.bool (pyBool (if ui_value ≠ PyVal.none then ui_value else PyVal.bool value))
        match element_register_call "checkbox" (some key) key on_change args kwargs
          deserialize_checkbox c with
        | (e, c, _) =>
          { err := e, ctx := some c, proto := proto, ret := Option.none }

theorem dget_dinsert {α : Type} (d : Dict α) (k k' : String) (v : α) :
    dget (dinsert d k v) k' = if k = k' then some v else dget d k' := by
  induction d with
  | nil => simp [dinsert, dget]
  | cons p d ih =>
    simp only [dinsert]
    by_cases hpk : p.1 = k
    · subst hpk
      simp only [if_pos rfl, dget]
      by_cases h : p.1 = k' <;> simp [h]
    · simp only [if_neg hpk, dget, ih]
      by_cases hpk' : p.1 = k'
      · subst hpk'
        by_cases hk : k = p.1
        · exact absurd hk.symm hpk
        · simp [hk]
      · simp [hpk']

theorem wlookup_eq_none (l : List WidgetState) (i : String)
    (h : i ∉ l.map WidgetState.id) : wlookup l i = Option.none := by
  induction l with
  | nil => rfl
  | cons w l ih =>
    simp only [List.map_cons, List.mem_cons] at h
    push_neg at h
    simp only [wlookup]
    rw [if_neg (fun he => h.1 he.symm), ih h.2]

theorem dget_foldl_keyed (l : List WidgetState) (d : Dict WidgetState) (i : String)
    (h : (l.map WidgetState.id).Nodup) :
    dget (l.foldl (fun d w => dinsert d w.id w) d) i =
      match wlookup l i with
      | some w => some w
      | Option.none => dget d i := by
  induction l generalizing d with
  | nil => rfl
  | cons w l ih =>
    simp only [List.map_cons, List.nodup_cons] at h
    obtain ⟨hw, hl⟩ := h
    simp only [List.foldl_cons, wlookup]
    by_cases hwi : w.id = i
    · subst hwi
      simp only [if_pos rfl]
      rw [ih _ hl, wlookup_eq_none l w.id hw, dget_dinsert]
      simp
    · simp only [if_neg hwi]
      rw [ih _ hl]
      cases hwl : wlookup l i with
      | none => rw [dget_dinsert, if_neg hwi]
      | some _ => rfl

theorem dget_coalesceStep_ne (d : Dict WidgetState) (o : WidgetState) (i : String)
    (h : ¬o.id = i) : dget (coalesceStep d o) i = dget d i := by
  unfold coalesceStep
  split
  · cases hdg : dget d o.id with
    | none => simp [hdg]
    | some n =>
      simp only [hdg]
      split
      · rw [dget_dinsert, if_neg h]
      · rfl
  · rfl

theorem dget_foldl_coalesceStep (l : List WidgetState) (d : Dict WidgetState) (i : String)
    (h : (l.map WidgetState.id).Nodup) :
    dget (l.foldl coalesceStep d) i =
      match wlookup l i with
      | some o =>
        if o.value.whichOneof = "trigger_value" ∧ o.trigger_value = true then
          match dget d i with
          | some n =>
            if n.value.whichOneof = "trigger_value" then some o else some n
          | Option.none => Option.none
        else dget d i
      | Option.none => dget d i := by
  induction l generalizing d with
  | nil => rfl
  | cons o l ih =>
    simp only [List.map_cons, List.nodup_cons] at h
    obtain ⟨ho, hl⟩ := h
    by_cases hoi : o.id = i
    · have h1 : wlookup (o :: l) i = some o := by simp [wlookup, hoi]
      have h2 : wlookup l i = Option.none :=
        wlookup_eq_none l i (by rw [← hoi]; exact ho)
      rw [List.foldl_cons, ih _ hl, h2, h1]
      show dget (coalesceStep d o) i =
        if o.value.whichOneof = "trigger_value" ∧ o.trigger_value = true then
          match dget d i with
          | some n =>
            if n.value.whichOneof = "trigger_value" then some o else some n
          | Option.none => Option.none
        else dget d i
      unfold coalesceStep
      rw [hoi]
      by_cases hc : o.value.whichOneof = "trigger_value" ∧ o.trigger_value = true
      · rw [if_pos hc, if_pos hc]
        cases hdg : dget d i with
        | none => simp [hdg]
        | some n =>
          simp only [hdg]
          by_cases hn : n.value.whichOneof = "trigger_value"
          · rw [if_pos hn, if_pos hn, dget_dinsert]
            simp
          · rw [if_neg hn, if_neg hn]
            exact hdg
      · rw [if_neg hc, if_neg hc]
    · have h1 : wlookup (o :: l) i = wlookup l i := by simp [wlookup, hoi]
      rw [List.foldl_cons, ih _ hl, dget_coalesceStep_ne d o i hoi, h1]

/-- Well-formedness of a widget-state dict: every entry is keyed by its
record's id. Both loops of `coalesce_widget_states` only ever insert a
record at its own id, so the invariant holds for the dict whose values are
extended into the result. -/
def DictWF (d : Dict WidgetState) : Prop := ∀ p ∈ d, (p.2).id = p.1

theorem dictWF_dinsert {d : Dict WidgetState} {k : String} {v : WidgetState}
    (hd : DictWF d) (hv : v.id = k) : DictWF (dinsert d k v) := by
  induction d with
  | nil =>
    intro p hp
    simp only [dinsert, List.mem_singleton] at hp
    subst hp; exact hv
  | cons q d ih =>
    intro p hp
    simp only [dinsert] at hp
    by_cases hq : q.1 = k
    · rw [if_pos hq] at hp
      rcases List.mem_cons.mp hp with h | h
      · subst h; exact hv
      · exact hd p (List.mem_cons_of_mem _ h)
    · rw [if_neg hq] at hp
      rcases List.mem_cons.mp hp with h | h
      · subst h; exact hd p (List.mem_cons_self _ _)
      · exact ih (fun r hr => hd r (List.mem_cons_of_mem _ hr)) p h

theorem dictWF_foldl_keyed (l : List WidgetState) (d : Dict WidgetState)
    (hd : DictWF d) : DictWF (l.foldl (fun d w => dinsert d w.id w) d) := by
  induction l generalizing d with
  | nil => exact hd
  | cons w l ih => exact ih _ (dictWF_dinsert hd rfl)

theorem dictWF_coalesceStep {d : Dict WidgetState} {o : WidgetState}
    (hd : DictWF d) : DictWF (coalesceStep d o) := by
  unfold coalesceStep
  split
  · cases dget d o.id with
    | none => exact hd
    | some n =>
      simp only
      split
      · exact dictWF_dinsert hd rfl
      · exact hd
  · exact hd

theorem dictWF_foldl_coalesceStep (l : List WidgetState) (d : Dict WidgetState)
    (hd : DictWF d) : DictWF (l.foldl coalesceStep d) := by
  induction l generalizing d with
  | nil => exact hd
  | cons o l ih => exact ih _ (dictWF_coalesceStep hd)

theorem wlookup_map_snd (d : Dict WidgetState) (hd : DictWF d) (i : String) :
    wlookup (d.map Prod.snd) i = dget d i := by
  induction d with
  | nil => rfl
  | cons p d ih =>
    have hp := hd p (List.mem_cons_self _ _)
    simp only [List.map_cons, wlookup, dget, hp]
    by_cases h : p.1 = i
    · simp [h]
    · simp only [if_neg h]
      exact ih (fun q hq => hd q (List.mem_cons_of_mem _ hq))

/-- C1: for batches with unique widget ids, `coalesce_widget_states` keeps
exactly the ids of the new batch; an id whose old entry is a true trigger
flag and whose new entry is still of trigger kind gets the old (true
trigger) record, and every other id present in the new batch carries the
new batch's record unchanged — in particular, a true trigger whose new
entry changed to a non-trigger kind keeps the new record. -/
theorem C1_coalesce_trigger_survival (old_states new_states : List WidgetState)
    (hold : (old_states.map WidgetState.id).Nodup)
    (hnew : (new_states.map WidgetState.id).Nodup) :
    ∀ i : String,
      wlookup (coalesce_widget_states old_states new_states) i =
        match wlookup new_states i with
        | some n =>
          match wlookup old_states i with
          | some o =>
            if (o.value.whichOneof = "trigger_value" ∧ o.trigger_value = true)
                ∧ n.value.whichOneof = "trigger_value" then some o
            else some n
          | Option.none => some n
        | Option.none => Option.none := by
  intro i
  show wlookup
      ((old_states.foldl coalesceStep
        (new_states.foldl (fun d w => dinsert d w.id w) [])).map Prod.snd) i = _
  rw [wlookup_map_snd _
    (dictWF_foldl_coalesceStep _ _
      (dictWF_foldl_keyed _ _ (fun p hp => absurd hp (List.not_mem_nil p))))]
  rw [dget_foldl_coalesceStep _ _ _ hold, dget_foldl_keyed _ _ _ hnew]
  cases hn : wlookup new_states i with
  | none =>
    cases ho : wlookup old_states i with
    | none => rfl
    | some o =>
      by_cases hc : o.value.whichOneof = "trigger_value" ∧ o.trigger_value = true
      · simp [hc, dget]
      · simp [hc, dget]
  | some n =>
    cases ho : wlookup old_states i with
    | none => rfl
    | some o =>
      by_cases hc : o.value.whichOneof = "trigger_value" ∧ o.trigger_value = true
      · by_cases hk : n.value.whichOneof = "trigger_value"
        · simp [hc, hk]
        · simp [hc, hk]
      · simp [hc]

/-- Witness for C1: the spec's trigger-survival vignette. A true trigger in
the old batch forces the merged entry back to trigger-true when the new
entry is still a trigger; an unrelated id keeps its new value; and a true
trigger whose new entry changed kind (to `int_value 5`) is not resurrected. -/
theorem C1_coalesce_trigger_survival_witness :
    wlookup (coalesce_widget_states
        [⟨"id1", WValue.trigger_value true⟩]
        [⟨"id1", WValue.trigger_value false⟩, ⟨"id2", WValue.int_value 5⟩]) "id1" =
      some ⟨"id1", WValue.trigger_value true⟩ ∧
    wlookup (coalesce_widget_states
        [⟨"id1", WValue.trigger_value true⟩]
        [⟨"id1", WValue.trigger_value false⟩, ⟨"id2", WValue.int_value 5⟩]) "id2" =
      some ⟨"id2", WValue.int_value 5⟩ ∧
    wlookup (coalesce_widget_states
        [⟨"id1", WValue.trigger_value true⟩]
        [⟨"id1", WValue.int_value 5⟩]) "id1" =
      some ⟨"id1", WValue.int_value 5⟩ := by
  refine ⟨?_, ?_, ?_⟩
  · exact (C1_coalesce_trigger_survival
      [⟨"id1", WValue.trigger_value true⟩]
      [⟨"id1", WValue.trigger_value false⟩, ⟨"id2", WValue.int_value 5⟩]
      (by decide) (by decide) "id1").trans (by decide)
  · exact (C1_coalesce_trigger_survival
      [⟨"id1", WValue.trigger_value true⟩]
      [⟨"id1", WValue.trigger_value false⟩, ⟨"id2", WValue.int_value 5⟩]
      (by decide) (by decide) "id2").trans (by decide)
  · exact (C1_coalesce_trigger_survival
      [⟨"id1", WValue.trigger_value true⟩]
      [⟨"id1", WValue.int_value 5⟩]
      (by decide) (by decide) "id1").trans (by decide)

theorem dget_eq_none_iff {α : Type} (d : Dict α) (k : String) :
    dget d k = Option.none ↔ k ∉ dkeys d := by
  induction d with
  | nil => simp [dget, dkeys]
  | cons p d ih =>
    simp only [dget, dkeys, List.map_cons, List.mem_cons]
    by_cases h : p.1 = k
    · simp [h]
    · simp only [if_neg h, ih, dkeys]
      constructor
      · intro hn
        rintro (he | hm)
        · exact h he.symm
        · exact hn hm
      · intro hn hm
        exact hn (Or.inr hm)

theorem dget_dremove_self {α : Type} (d : Dict α) (k : String)
    (h : (dkeys d).Nodup) : dget (dremove d k) k = Option.none := by
  induction d with
  | nil => rfl
  | cons p d ih =>
    simp only [dkeys, List.map_cons, List.nodup_cons] at h
    simp only [dremove]
    by_cases hp : p.1 = k
    · rw [if_pos hp, dget_eq_none_iff]
      rw [hp] at h
      exact h.1
    · rw [if_neg hp]
      simp only [dget, if_neg hp]
      exact ih h.2

/-- C9 names a code bug: `cull_nonexistent` filters `self._state`, an
attribute that no method of `WidgetStateManager` ever creates (the
constructor assigns only the `_widget_*` dicts), so on every instance with
the attribute absent — hence on every reachable instance — the call raises
`AttributeError` instead of culling, and the current widget-state table is
left exactly as it was. -/
theorem C9_cull_raises_attribute_error (m : WidgetStateManager)
    (widget_ids : List String) (h : m._state = Option.none) :
    m.cull_nonexistent widget_ids = (some (PyError.attributeError "_state"), m) := by
  unfold WidgetStateManager.cull_nonexistent
  rw [h]

/-- Witness for C9: a freshly constructed store culled against `{"a"}`. -/
theorem C9_cull_raises_attribute_error_witness :
    WidgetStateManager.init.cull_nonexistent ["a"] =
      (some (PyError.attributeError "_state"), WidgetStateManager.init) :=
  C9_cull_raises_attribute_error WidgetStateManager.init ["a"] rfl

/-- C10: when a key sits in the pending generation but not the committed
one, `del session_state[key]` raises `KeyError`, and the failed delete is
not atomic — the pending entry is already gone (the committed generation is
untouched, and with unique pending keys the key no longer resolves there). -/
theorem C10_delitem_not_atomic (st : SessionState) (key : String)
    (hnew : (dget st._new_state key).isSome)
    (hold : dget st._old_state key = Option.none)
    (hnodup : (dkeys st._new_state).Nodup) :
    st.__delitem__ key =
      (some (PyError.keyError key),
       { st with _new_state := dremove st._new_state key }) ∧
    dget (st.__delitem__ key).2._new_state key = Option.none ∧
    (st.__delitem__ key).2._old_state = st._old_state := by
  obtain ⟨v, hv⟩ := Option.isSome_iff_exists.mp hnew
  have hres : st.__delitem__ key =
      (some (PyError.keyError key),
       { st with _new_state := dremove st._new_state key }) := by
    unfold SessionState.__delitem__
    rw [hv]
    simp only [hold]
  refine ⟨hres, ?_, ?_⟩
  · rw [hres]
    exact dget_dremove_self _ _ hnodup
  · rw [hres]

/-- Witness for C10: pending `{"k": 1}`, committed empty. -/
theorem C10_delitem_not_atomic_witness :
    (SessionState.mk [("k", PyVal.int 1)] []).__delitem__ "k" =
      (some (PyError.keyError "k"), SessionState.mk [] []) ∧
    dget ((SessionState.mk [("k", PyVal.int 1)] []).__delitem__ "k").2._new_state "k" =
      Option.none := by
  have h := C10_delitem_not_atomic (SessionState.mk [("k", PyVal.int 1)] []) "k"
    (by decide) (by decide) (by decide)
  refine ⟨h.1.trans ?_, h.2.1⟩
  rfl

/-- C4: once a key is registered as a widget id in the current run
(membership in the per-run seen-ID set), any `session_state[key] = v`
through the mapping interface raises the write-conflict
`StreamlitAPIException` and returns with both generations untouched. -/
theorem C4_setitem_write_conflict (st : SessionState) (c : ReportCtx)
    (key : String) (v : PyVal) (h : key ∈ c.widget_ids_this_run) :
    st.__setitem__ (some c) key v =
      (some (PyError.streamlitAPIException
        "Setting the value of a widget after its creation is disallowed"), st) := by
  simp only [SessionState.__setitem__, if_pos h]

/-- Witness for C4: widget id `k` registered this run, write of `5` to `k`. -/
theorem C4_setitem_write_conflict_witness :
    (SessionState.mk [] []).__setitem__
        (some ⟨["k"], WidgetStateManager.init, SessionState.mk [] []⟩) "k" (PyVal.int 5) =
      (some (PyError.streamlitAPIException
        "Setting the value of a widget after its creation is disallowed"),
       SessionState.mk [] []) :=
  C4_setitem_write_conflict (SessionState.mk [] [])
    ⟨["k"], WidgetStateManager.init, SessionState.mk [] []⟩ "k" (PyVal.int 5)
    (by decide)

/-- Counterexample for C7: two registrations without a user key whose
declaration payloads differ byte-wise — and whose kind tags differ too —
but whose protos carry the same `label` attribute get the same widget id:
`register_widget` (elements/utils.py lines 124-131) promotes the payload's
`label` to the key whenever the attribute exists, so the id never reaches
the hash of kind and payload. -/
theorem C7_widget_id_counterexample :
    (Utils.register_widget "text_input"
        { label := some "L", serialized := "payloadA" }
        Option.none Option.none Option.none (fun x => x)
        Option.none).element_proto.id =
      (Utils.register_widget "checkbox"
        { label := some "L", serialized := "payloadB" }
        Option.none Option.none Option.none (fun x => x)
        Option.none).element_proto.id ∧
    ("payloadA" : String) ≠ "payloadB" ∧ ("text_input" : String) ≠ "checkbox" :=
  ⟨rfl, by decide, by decide⟩

/-- Amended C7: the computed widget id is the user key when one is supplied;
without a user key it is the payload's `label` attribute when the payload
has one (hence identical across byte-identical registrations, but not
necessarily different across different kinds or payloads); only for a
payload without a `label` attribute is it the deterministic
`str(hash((kind, serialized payload)))`. -/
theorem C7_widget_id_rule (element_type : String) (p : ElementProto)
    (user_key : Option String) (wfn : Option String) (och : Option String)
    (d : PyVal → PyVal) (ctx : Option ReportCtx) :
    (Utils.register_widget element_type p user_key wfn och d ctx).element_proto.id =
      match user_key with
      | some k => k
      | Option.none =>
        match p.label with
        | some l => l
        | Option.none => toString (pyHash element_type p.serialized) := by
  cases ctx with
  | none =>
    cases user_key with
    | none =>
      cases hl : p.label with
      | none => simp [Utils.register_widget, _get_widget_id, hl]
      | some l => simp [Utils.register_widget, _get_widget_id, hl]
    | some k => simp [Utils.register_widget, _get_widget_id]
  | some c =>
    cases user_key with
    | none =>
      cases hl : p.label with
      | none =>
        simp only [Utils.register_widget, _get_widget_id, hl]
        split
        · rfl
        · rfl
      | some l =>
        simp only [Utils.register_widget, _get_widget_id, hl]
        split
        · rfl
        · cases och <;> rfl
    | some k =>
      simp only [Utils.register_widget, _get_widget_id]
      split
      · rfl
      · cases och <;> rfl

theorem call_callbacks_filter_eq_nil (m : WidgetStateManager) (l : List WidgetState)
    (i : String) (h : ∀ ns ∈ l, ns.id ≠ i) :
    (m.call_callbacks l).filter (fun inv => inv.widget_id == i) = [] := by
  induction l with
  | nil => rfl
  | cons ns l ih =>
    have hns := h ns (List.mem_cons_self _ _)
    have ht := ih (fun x hx => h x (List.mem_cons_of_mem _ hx))
    unfold WidgetStateManager.call_callbacks at ht ⊢
    simp only [List.filterMap_cons]
    cases hcb : dget m._widget_callbacks ns.id with
    | none => exact ht
    | some cb =>
      by_cases he : m.equivalent_values ns = true
      · simp only [he, if_true]
        exact ht
      · simp only [he, if_false]
        cases ha : dget m._widget_args ns.id with
        | none => simpa [List.filter_cons, hns] using ht
        | some a => simpa [List.filter_cons, hns] using ht

theorem call_callbacks_ids_sublist (m : WidgetStateManager) (l : List WidgetState) :
    List.Sublist ((m.call_callbacks l).map CallbackInvocation.widget_id)
      (l.map WidgetState.id) := by
  induction l with
  | nil => exact List.Sublist.refl _
  | cons ns l ih =>
    unfold WidgetStateManager.call_callbacks at ih ⊢
    simp only [List.filterMap_cons, List.map_cons]
    cases dget m._widget_callbacks ns.id with
    | none => exact ih.cons _
    | some cb =>
      by_cases he : m.equivalent_values ns = true
      · simp only [he, if_true]
        exact ih.cons _
      · simp only [he, if_false]
        cases dget m._widget_args ns.id with
        | none => exact ih.cons₂ _
        | some a => exact ih.cons₂ _

theorem call_callbacks_filter_char (m : WidgetStateManager) (l : List WidgetState)
    (h : (l.map WidgetState.id).Nodup) :
    ∀ ns ∈ l,
      (m.call_callbacks l).filter (fun inv => inv.widget_id == ns.id) =
        match dget m._widget_callbacks ns.id with
        | Option.none => []
        | some cb =>
          if m.equivalent_values ns then []
          else
            [⟨ns.id, cb,
              (match dget m._widget_args ns.id with
               | some a => a.args.getD []
               | Option.none => []),
              (match dget m._widget_args ns.id with
               | some a => a.kwargs.getD []
               | Option.none => [])⟩] := by
  induction l with
  | nil => intro ns hns; exact absurd hns (List.not_mem_nil ns)
  | cons hd tl ih =>
    intro ns hns
    simp only [List.map_cons, List.nodup_cons] at h
    obtain ⟨hhd, htl⟩ := h
    rcases List.mem_cons.mp hns with he | hm
    · subst he
      have htail : (m.call_callbacks tl).filter (fun inv => inv.widget_id == ns.id) = [] :=
        call_callbacks_filter_eq_nil m tl ns.id
          (fun x hx hxid => hhd (by rw [← hxid]; exact List.mem_map_of_mem WidgetState.id hx))
      unfold WidgetStateManager.call_callbacks at htail ⊢
      simp only [List.filterMap_cons]
      cases hcb : dget m._widget_callbacks ns.id with
      | none => exact htail
      | some cb =>
        by_cases heq : m.equivalent_values ns = true
        · simp only [heq, if_true]
          exact htail
        · simp only [heq, if_false]
          cases ha : dget m._widget_args ns.id with
          | none => simpa [List.filter_cons] using htail
          | some a => simpa [List.filter_cons] using htail
    · have hne : hd.id ≠ ns.id :=
        fun hh => hhd (by rw [hh]; exact List.mem_map_of_mem WidgetState.id hm)
      have hrec := ih htl ns hm
      unfold WidgetStateManager.call_callbacks at hrec ⊢
      simp only [List.filterMap_cons]
      cases hcb : dget m._widget_callbacks hd.id with
      | none => exact hrec
      | some cb =>
        by_cases heq : m.equivalent_values hd = true
        · simp only [heq, if_true]
          exact hrec
        · simp only [heq, if_false]
          cases ha : dget m._widget_args hd.id with
          | none => simpa [List.filter_cons, hne] using hrec
          | some a => simpa [List.filter_cons, hne] using hrec

/-- C6: in a batch with unique widget ids, the dispatch trace of
`call_callbacks` walks the batch in order (its widget ids form a sublist of
the batch ids); for every batch entry with a registered callback, the
callback fires exactly once — with its captured args and kwargs — when the
previous and new State Records are not equivalent, and not at all when they
are; and with a registered deserializer, equivalence is exactly the
deserialized new value equalling the deserialized previous value. -/
theorem C6_callback_dispatch (m : WidgetStateManager) (batch : List WidgetState)
    (hnodup : (batch.map WidgetState.id).Nodup) :
    List.Sublist ((m.call_callbacks batch).map CallbackInvocation.widget_id)
      (batch.map WidgetState.id) ∧
    ∀ ns ∈ batch,
      ((m.call_callbacks batch).filter (fun inv => inv.widget_id == ns.id) =
        match dget m._widget_callbacks ns.id with
        | Option.none => []
        | some cb =>
          if m.equivalent_values ns then []
          else
            [⟨ns.id, cb,
              (match dget m._widget_args ns.id with
               | some a => a.args.getD []
               | Option.none => []),
              (match dget m._widget_args ns.id with
               | some a => a.kwargs.getD []
               | Option.none => [])⟩]) ∧
      (∀ d, dget m._widget_deserializers ns.id = some d →
        (m.equivalent_values ns = true ↔
          d (_get_widget_value (some ns)) = d (m.get_previous_widget_value ns.id))) := by
  refine ⟨call_callbacks_ids_sublist m batch,
    fun ns hns => ⟨call_callbacks_filter_char m batch hnodup ns hns, ?_⟩⟩
  intro d hd
  unfold WidgetStateManager.equivalent_values
  rw [hd]
  simp

/-- A concrete store for the C6 witness: previous record for `b` is
trigger-false, a callback `cb` with captured args `(1,)` and kwargs
`{x: 2}` and the identity deserializer are registered for `b`. -/
def c6mgr : WidgetStateManager :=
  { _widget_states := [],
    _previous_widget_states := [("b", ⟨"b", WValue.trigger_value false⟩)],
    _widget_callbacks := [("b", "cb")],
    _widget_deserializers := [("b", fun x => x)],
    _widget_args := [("b", ⟨some [PyVal.int 1], some [("x", PyVal.int 2)]⟩)],
    _state := Option.none }

/-- Witness for C6: a trigger-true update against the trigger-false previous
record fires `cb` exactly once with its captured arguments. -/
theorem C6_callback_dispatch_witness :
    (c6mgr.call_callbacks [⟨"b", WValue.trigger_value true⟩]).filter
        (fun inv => inv.widget_id == "b") =
      [⟨"b", "cb", [PyVal.int 1], [("x", PyVal.int 2)]⟩] := by
  have h := (C6_callback_dispatch c6mgr [⟨"b", WValue.trigger_value true⟩]
    (by decide)).2 ⟨"b", WValue.trigger_value true⟩ (List.mem_singleton.mpr rfl)
  exact h.1.trans (by rfl)

theorem mem_dkeys_iff_dget {α : Type} (d : Dict α) (k : String) :
    k ∈ dkeys d ↔ dget d k ≠ Option.none := by
  constructor
  · intro h hn
    exact (dget_eq_none_iff d k).mp hn h
  · intro h
    by_contra hm
    exact h ((dget_eq_none_iff d k).mpr hm)

theorem mem_dkeys_dinsert {α : Type} (d : Dict α) (k k' : String) (v : α) :
    k' ∈ dkeys (dinsert d k v) ↔ k' ∈ dkeys d ∨ k' = k := by
  rw [mem_dkeys_iff_dget, mem_dkeys_iff_dget, dget_dinsert]
  by_cases h : k = k'
  · simp [h]
  · have h2 : ¬k' = k := fun hh => h hh.symm
    simp [if_neg h, h2]

theorem nodup_dkeys_dinsert {α : Type} (d : Dict α) (k : String) (v : α)
    (h : (dkeys d).Nodup) : (dkeys (dinsert d k v)).Nodup := by
  induction d with
  | nil => simp [dinsert, dkeys]
  | cons p d ih =>
    simp only [dkeys, List.map_cons, List.nodup_cons] at h
    obtain ⟨hp, hd⟩ := h
    simp only [dinsert]
    by_cases hpk : p.1 = k
    · rw [if_pos hpk]
      simp only [dkeys, List.map_cons, List.nodup_cons]
      exact ⟨hpk ▸ hp, hd⟩
    · rw [if_neg hpk]
      simp only [dkeys, List.map_cons, List.nodup_cons]
      refine ⟨?_, ih hd⟩
      intro hmem
      rcases (mem_dkeys_dinsert d k p.1 v).mp hmem with h1 | h1
      · exact hp h1
      · exact hpk h1

theorem dget_dmerge {α : Type} (a b : Dict α) (k : String)
    (hb : (dkeys b).Nodup) :
    dget (dmerge a b) k =
      match dget b k with
      | some v => some v
      | Option.none => dget a k := by
  induction b generalizing a with
  | nil => rfl
  | cons p b ih =>
    simp only [dkeys, List.map_cons, List.nodup_cons] at hb
    obtain ⟨hp, hb⟩ := hb
    show dget (dmerge (dinsert a p.1 p.2) b) k = _
    rw [ih _ hb]
    by_cases hpk : p.1 = k
    · have hb0 : dget b k = Option.none := by
        rw [dget_eq_none_iff, ← hpk]
        exact hp
      simp only [hb0, dget, if_pos hpk, dget_dinsert]
    · simp only [dget, if_neg hpk]
      cases hbk : dget b k with
      | some v => rfl
      | none => rw [dget_dinsert, if_neg hpk]

theorem mem_dkeys_dmerge {α : Type} (a b : Dict α) (k : String) :
    k ∈ dkeys (dmerge a b) ↔ k ∈ dkeys a ∨ k ∈ dkeys b := by
  induction b generalizing a with
  | nil => simp [dmerge, dkeys]
  | cons p b ih =>
    show k ∈ dkeys (dmerge (dinsert a p.1 p.2) b) ↔ _
    rw [ih, mem_dkeys_dinsert]
    simp only [dkeys, List.map_cons, List.mem_cons]
    tauto

theorem nodup_dkeys_dmerge {α : Type} (a b : Dict α)
    (ha : (dkeys a).Nodup) : (dkeys (dmerge a b)).Nodup := by
  induction b generalizing a with
  | nil => exact ha
  | cons p b ih => exact ih _ (nodup_dkeys_dinsert a p.1 p.2 ha)

theorem dkeys_map_val {α β : Type} (d : Dict α) (f : α → β) :
    dkeys (d.map (fun p => (p.1, f p.2))) = dkeys d := by
  induction d with
  | nil => rfl
  | cons p d ih =>
    simp only [List.map_cons, dkeys] at ih ⊢
    rw [ih]

theorem dget_map_val {α β : Type} (d : Dict α) (f : α → β) (k : String) :
    dget (d.map (fun p => (p.1, f p.2))) k = (dget d k).map f := by
  induction d with
  | nil => rfl
  | cons p d ih =>
    simp only [List.map_cons, dget]
    by_cases h : p.1 = k
    · simp [h]
    · simp [h, ih]

/-- The spec's three-tier merged read, written from its words: the pending
value first, then the live widget value when one exists, then the committed
value; `Option.none` when all three sources are absent. -/
def specMergedRead (st : SessionState) (ctx : Option ReportCtx) (key : String) :
    Option PyVal :=
  match dget st._new_state key with
  | some v => some v
  | Option.none =>
    if beta_widget_value ctx key ≠ PyVal.none then some (beta_widget_value ctx key)
    else dget st._old_state key

/-- C2: reading a key through `__getitem__` follows the spec's three-tier
precedence — pending, then live widget value (when `beta_widget_value`
yields one), then committed — raising `KeyError` exactly when all three are
absent; `get` returns its default exactly in the `KeyError` case; and the
merged dict behind iteration and `len` has no duplicate keys, ranges over
the union of the three layers, and resolves every key with the same
pending > widget-live > committed precedence (the widget layer holding the
raw records of the store). -/
theorem C2_session_read_precedence (st : SessionState) (c : ReportCtx) (key : String)
    (hnew : (dkeys st._new_state).Nodup) (hold : (dkeys st._old_state).Nodup)
    (hw : (dkeys c.widgets._widget_states).Nodup) :
    (st.__getitem__ (some c) key =
      match specMergedRead st (some c) key with
      | some v => Except.ok v
      | Option.none => Except.error (PyError.keyError key)) ∧
    (∀ dv, st.get (some c) key dv = (specMergedRead st (some c) key).getD dv) ∧
    (st.__getitem__ (some c) key = Except.error (PyError.keyError key) ↔
      dget st._new_state key = Option.none ∧
      beta_widget_value (some c) key = PyVal.none ∧
      dget st._old_state key = Option.none) ∧
    (∃ m, st._get_merged (some c) = some m ∧
      (dkeys m).Nodup ∧
      (∀ k, k ∈ dkeys m ↔
        k ∈ dkeys st._old_state ∨ k ∈ dkeys c.widgets._widget_states ∨
        k ∈ dkeys st._new_state) ∧
      st.__iter__ (some c) = some (dkeys m) ∧
      st.__len__ (some c) = some (dkeys m).length ∧
      (∀ k, dget m k =
        match dget st._new_state k with
        | some v => some (MergedVal.sessionVal v)
        | Option.none =>
          match dget c.widgets._widget_states k with
          | some w => some (MergedVal.widgetState w)
          | Option.none => (dget st._old_state k).map MergedVal.sessionVal)) := by
  have hget : st.__getitem__ (some c) key =
      match specMergedRead st (some c) key with
      | some v => Except.ok v
      | Option.none => Except.error (PyError.keyError key) := by
    simp only [SessionState.__getitem__, specMergedRead]
    cases dget st._new_state key with
    | some v => rfl
    | none =>
      by_cases hb : beta_widget_value (some c) key ≠ PyVal.none
      · simp [hb]
      · simp only [if_neg hb]
  have herr : specMergedRead st (some c) key = Option.none ↔
      dget st._new_state key = Option.none ∧
      beta_widget_value (some c) key = PyVal.none ∧
      dget st._old_state key = Option.none := by
    simp only [specMergedRead]
    cases dget st._new_state key with
    | some v => simp
    | none =>
      by_cases hb : beta_widget_value (some c) key = PyVal.none
      · simp [hb]
      · simp [hb]
  refine ⟨hget, ?_, ?_, ?_⟩
  · intro dv
    unfold SessionState.get
    rw [hget]
    cases specMergedRead st (some c) key with
    | some v => rfl
    | none => rfl
  · rw [hget]
    rw [← herr]
    cases specMergedRead st (some c) key with
    | some v => simp
    | none => simp
  · refine ⟨_, rfl, ?_, ?_, rfl, ?_, ?_⟩
    · exact nodup_dkeys_dmerge _ _
        (nodup_dkeys_dmerge _ _ (by rw [dkeys_map_val]; exact hold))
    · intro k
      rw [mem_dkeys_dmerge, mem_dkeys_dmerge, dkeys_map_val, dkeys_map_val, dkeys_map_val]
      tauto
    · simp only [SessionState.__len__, SessionState._get_merged, widget_values,
        Option.map]
      rw [dkeys, List.length_map]
    · intro k
      rw [dget_dmerge _ _ _ (by rw [dkeys_map_val]; exact hnew), dget_map_val]
      cases dget st._new_state k with
      | some v => rfl
      | none =>
        simp only [Option.map]
        rw [dget_dmerge _ _ _ (by rw [dkeys_map_val]; exact hw), dget_map_val]
        cases dget c.widgets._widget_states k with
        | some w => rfl
        | none =>
          simp only [Option.map]
          rw [dget_map_val]
          cases dget st._old_state k <;> rfl

/-- Session state and store for the C2 witness: pending `{p: 1}`, committed
`{o: 2, p: 9}`, live widget record `w` holding `int_value 7`. -/
def c2ctx : ReportCtx :=
  ⟨[], { WidgetStateManager.init with
          _widget_states := [("w", ⟨"w", WValue.int_value 7⟩)] },
   SessionState.init⟩

/-- Witness for C2: the pending value shadows the committed one, the live
widget value surfaces for `w`, the committed value surfaces for `o`, and a
key absent from all three layers falls back to the default through `get`. -/
theorem C2_session_read_precedence_witness :
    (SessionState.mk [("p", PyVal.int 1)] [("o", PyVal.int 2), ("p", PyVal.int 9)]).__getitem__
        (some c2ctx) "p" = Except.ok (PyVal.int 1) ∧
    (SessionState.mk [("p", PyVal.int 1)] [("o", PyVal.int 2), ("p", PyVal.int 9)]).__getitem__
        (some c2ctx) "w" = Except.ok (PyVal.int 7) ∧
    (SessionState.mk [("p", PyVal.int 1)] [("o", PyVal.int 2), ("p", PyVal.int 9)]).__getitem__
        (some c2ctx) "o" = Except.ok (PyVal.int 2) ∧
    (SessionState.mk [("p", PyVal.int 1)] [("o", PyVal.int 2), ("p", PyVal.int 9)]).get
        (some c2ctx) "z" (PyVal.int 42) = PyVal.int 42 ∧
    (SessionState.mk [("p", PyVal.int 1)] [("o", PyVal.int 2), ("p", PyVal.int 9)]).__len__
        (some c2ctx) = some 3 := by
  have hp := C2_session_read_precedence
    (SessionState.mk [("p", PyVal.int 1)] [("o", PyVal.int 2), ("p", PyVal.int 9)])
    c2ctx "p" (by decide) (by decide) (by decide)
  have hw := C2_session_read_precedence
    (SessionState.mk [("p", PyVal.int 1)] [("o", PyVal.int 2), ("p", PyVal.int 9)])
    c2ctx "w" (by decide) (by decide) (by decide)
  have ho := C2_session_read_precedence
    (SessionState.mk [("p", PyVal.int 1)] [("o", PyVal.int 2), ("p", PyVal.int 9)])
    c2ctx "o" (by decide) (by decide) (by decide)
  have hz := C2_session_read_precedence
    (SessionState.mk [("p", PyVal.int 1)] [("o", PyVal.int 2), ("p", PyVal.int 9)])
    c2ctx "z" (by decide) (by decide) (by decide)
  obtain ⟨m, hm, -, -, -, hlen, -⟩ := hp.2.2.2
  refine ⟨hp.1.trans (by rfl), hw.1.trans (by rfl), ho.1.trans (by rfl),
    (hz.2.1 (PyVal.int 42)).trans (by rfl), hlen.trans ?_⟩
  have : m = dmerge
      (dmerge ([("o", PyVal.int 2), ("p", PyVal.int 9)].map
        (fun p => (p.1, MergedVal.sessionVal p.2)))
        ([("w", ⟨"w", WValue.int_value 7⟩)].map (fun p => (p.1, MergedVal.widgetState p.2))))
      ([("p", PyVal.int 1)].map (fun p => (p.1, MergedVal.sessionVal p.2))) :=
    Option.some.inj (hm.symm.trans rfl)
  rw [this]
  rfl

/-- Environment for the form-scope scenarios: running under streamlit,
inside form `f`, fresh store, fresh session state, empty seen-ID set. -/
def formEnv : ScriptEnv :=
  ⟨true, true, "f", some ⟨[], WidgetStateManager.init, SessionState.init⟩⟩

/-- Environment for the plain (non-form) scenarios. -/
def plainEnv : ScriptEnv :=
  ⟨true, false, "", some ⟨[], WidgetStateManager.init, SessionState.init⟩⟩

/-- Counterexample for C5: inside a form with an empty Widget State Store —
so no submit trigger exists, let alone fired true — declaring a text input
with default `"a"` commits `"a"` to Session State's pending generation
immediately (`state[key] = value`, text_widgets.py line 112, before any
submit), and the declaration then does not return the value at all: its
`register_widget` call (text_widgets.py line 141) passes keywords the
in-src registrar (widgets.py lines 37-42) does not accept and raises
`TypeError`. Both halves of the claim fail at this input. -/
theorem C5_form_commit_counterexample :
    formEnv.ctx = some ⟨[], WidgetStateManager.init, SessionState.init⟩ ∧
    (text_input formEnv "movie" (PyVal.str "a") Option.none Option.none "default"
        Option.none Option.none Option.none Option.none).err =
      some (PyError.typeError "register_widget() got an unexpected keyword argument") ∧
    (text_input formEnv "movie" (PyVal.str "a") Option.none Option.none "default"
        Option.none Option.none Option.none Option.none).ret = Option.none ∧
    (match (text_input formEnv "movie" (PyVal.str "a") Option.none Option.none "default"
        Option.none Option.none Option.none Option.none).ctx with
     | some c => dget c.session_state._new_state "internal:text_input:movie"
     | Option.none => Option.none) = some (PyVal.str "a") :=
  ⟨rfl, rfl, rfl, rfl⟩

/-- Amended C5: inside a form with no buffered widget-store value for the
key, the text-input declaration resolves the caller default (a buffered
value would win if one existed), leaves the payload override off, and
writes the value into the pending generation immediately — before any
submit trigger fires; after the run-boundary `make_state_old` the value is
the committed value, independent of any submit. The declaration itself then
raises `TypeError` at its `register_widget` call (the in-src registrar
accepts none of the callback keywords the call site passes) and never
returns a value. -/
theorem C5_form_buffering_amended (env : ScriptEnv) (c : ReportCtx) (label d : String)
    (hctx : env.ctx = some c)
    (hform : env.in_form = true)
    (hnobuf : beta_widget_value (some c) ("internal:text_input:" ++ label) = PyVal.none)
    (hfree : ("internal:text_input:" ++ label) ∉ c.widget_ids_this_run)
    (hnodup : (dkeys c.session_state._new_state).Nodup) :
    (text_input env label (PyVal.str d) Option.none Option.none "default"
        Option.none Option.none Option.none Option.none).err =
      some (PyError.typeError "register_widget() got an unexpected keyword argument") ∧
    (text_input env label (PyVal.str d) Option.none Option.none "default"
        Option.none Option.none Option.none Option.none).ret = Option.none ∧
    (text_input env label (PyVal.str d) Option.none Option.none "default"
        Option.none Option.none Option.none Option.none).proto.valueSet = false ∧
    (match (text_input env label (PyVal.str d) Option.none Option.none "default"
        Option.none Option.none Option.none Option.none).ctx with
     | some c2 => dget c2.session_state._new_state ("internal:text_input:" ++ label)
     | Option.none => Option.none) = some (PyVal.str d) ∧
    (match (text_input env label (PyVal.str d) Option.none Option.none "default"
        Option.none Option.none Option.none Option.none).ctx with
     | some c2 => dget c2.session_state.make_state_old._old_state
         ("internal:text_input:" ++ label)
     | Option.none => Option.none) = some (PyVal.str d) := by
  have hres : resolve_text_value true
      (beta_widget_value (some c) ("internal:text_input:" ++ label))
      (c.session_state.get (some c) ("internal:text_input:" ++ label) PyVal.none)
      (PyVal.str d) = PyVal.str d := by
    simp [resolve_text_value, hnobuf]
  refine ⟨?_, ?_, ?_, ?_, ?_⟩
  · simp [text_input, hctx, hform, hres, SessionState.__setitem__, hfree,
      element_register_call]
  · simp [text_input, hctx, hform, hres, SessionState.__setitem__, hfree,
      element_register_call]
  · simp [text_input, hctx, hform, hres, SessionState.__setitem__, hfree,
      element_register_call]
  · simp [text_input, hctx, hform, hres, SessionState.__setitem__, hfree,
      element_register_call]
    rw [dget_dinsert]
    simp
  · simp [text_input, hctx, hform, hres, SessionState.__setitem__, hfree,
      element_register_call, SessionState.make_state_old]
    rw [dget_dmerge _ _ _ (nodup_dkeys_dinsert _ _ _ hnodup), dget_dinsert]
    simp

/-- Witness for C5 (amended): the concrete in-form scenario of the spec —
the declaration ends in the `TypeError`, and the default is nevertheless
committed through pending into the committed generation at the run
boundary. -/
theorem C5_form_buffering_amended_witness :
    (text_input formEnv "movie" (PyVal.str "a") Option.none Option.none "default"
        Option.none Option.none Option.none Option.none).err =
      some (PyError.typeError "register_widget() got an unexpected keyword argument") ∧
    (match (text_input formEnv "movie" (PyVal.str "a") Option.none Option.none "default"
        Option.none Option.none Option.none Option.none).ctx with
     | some c2 => dget c2.session_state.make_state_old._old_state
         "internal:text_input:movie"
     | Option.none => Option.none) = some (PyVal.str "a") := by
  have h := C5_form_buffering_amended formEnv
    ⟨[], WidgetStateManager.init, SessionState.init⟩ "movie" "a"
    rfl rfl rfl (by decide) (by decide)
  exact ⟨h.1, h.2.2.2.2⟩

/-- Counterexample for C8: a text input declared outside any form with an
explicitly supplied caller value `"a"` against a fresh session — the claim
says `force_set_value` must then be true and the payload carry the
override, but the code derives the flag as `state.is_new_value(key) and not
is_in_form` (text_widgets.py line 85), which is false here, so the payload
is built with neither `value` nor `valueSet` set (the declaration then ends
in the `TypeError` of its register call, after the payload is built). -/
theorem C8_force_set_counterexample :
    (PyVal.str "a" ≠ PyVal.none) ∧ plainEnv.in_form = false ∧
    (text_input plainEnv "movie" (PyVal.str "a") Option.none Option.none "default"
        Option.none Option.none Option.none Option.none).proto.valueSet = false ∧
    (text_input plainEnv "movie" (PyVal.str "a") Option.none Option.none "default"
        Option.none Option.none Option.none Option.none).proto.value = PyVal.none ∧
    (text_input plainEnv "movie" (PyVal.str "a") Option.none Option.none "default"
        Option.none Option.none Option.none Option.none).err =
      some (PyError.typeError "register_widget() got an unexpected keyword argument") :=
  ⟨by decide, rfl, rfl, rfl, rfl⟩

/-- Amended C8: the `force_set_value` derivation is per widget kind, not the
uniform rule the claim states. For a text input it is
`state.is_new_value(key) and not is_in_form` — the key already has a
pending-generation value and the declaration is outside a form; for a
checkbox it is `value is not None or state.is_new_value(key)`, with no
form-scope conjunct. When the flag is true the resolved value — the value
the declaration writes into the pending generation — goes into the payload
with `valueSet` true (for the checkbox, as its bool cast); when it is false
neither field is set. In either case the declaration then raises
`TypeError` at its register call and returns nothing. -/
theorem C8_force_set_amended (env : ScriptEnv) (c : ReportCtx)
    (label : String) (value : PyVal) (key : String)
    (hctx : env.ctx = some c)
    (hfree : key ∉ c.widget_ids_this_run) :
    ((text_input env label value Option.none (some key) "default"
        Option.none Option.none Option.none Option.none).err =
       some (PyError.typeError "register_widget() got an unexpected keyword argument") ∧
     (text_input env label value Option.none (some key) "default"
        Option.none Option.none Option.none Option.none).ret = Option.none ∧
     (text_input env label value Option.none (some key) "default"
        Option.none Option.none Option.none Option.none).proto.valueSet =
       (c.session_state.is_new_value key && !env.in_form) ∧
     ((c.session_state.is_new_value key && !env.in_form) = true →
       (match (text_input env label value Option.none (some key) "default"
          Option.none Option.none Option.none Option.none).ctx with
        | some c2 => dget c2.session_state._new_state key
        | Option.none => Option.none) =
         some (text_input env label value Option.none (some key) "default"
            Option.none Option.none Option.none Option.none).proto.value) ∧
     ((c.session_state.is_new_value key && !env.in_form) = false →
       (text_input env label value Option.none (some key) "default"
          Option.none Option.none Option.none Option.none).proto.value = PyVal.none)) ∧
    ((checkbox env label value key
        Option.none Option.none Option.none Option.none).err =
       some (PyError.typeError "register_widget() got an unexpected keyword argument") ∧
     (checkbox env label value key
        Option.none Option.none Option.none Option.none).ret = Option.none ∧
     (checkbox env label value key
        Option.none Option.none Option.none Option.none).proto.valueSet =
       (decide (value ≠ PyVal.none) || c.session_state.is_new_value key) ∧
     ((decide (value ≠ PyVal.none) || c.session_state.is_new_value key) = true →
       (match (checkbox env label value key
          Option.none Option.none Option.none Option.none).ctx with
        | some c2 => (dget c2.session_state._new_state key).map pyBool
        | Option.none => Option.none) =
         some (checkbox env label value key
            Option.none Option.none Option.none Option.none).proto.value) ∧
     ((decide (value ≠ PyVal.none) || c.session_state.is_new_value key) = false →
       (checkbox env label value key
          Option.none Option.none Option.none Option.none).proto.value = false)) := by
  constructor
  · by_cases hf : (c.session_state.is_new_value key && !env.in_form) = true
    · have hfP : c.session_state.is_new_value key = true ∧ env.in_form = false := by
        simpa using hf
      refine ⟨?_, ?_, ?_, fun _ => ?_, fun hc => absurd (hc ▸ hf) (by decide)⟩
      · simp [text_input, hctx, hf, hfP, SessionState.__setitem__, hfree,
          element_register_call]
      · simp [text_input, hctx, hf, hfP, SessionState.__setitem__, hfree,
          element_register_call]
      · simp [text_input, hctx, hf, hfP, SessionState.__setitem__, hfree,
          element_register_call]
      · simp [text_input, hctx, hf, hfP, SessionState.__setitem__, hfree,
          element_register_call]
        rw [dget_dinsert]
        simp
    · have hfN : ¬(c.session_state.is_new_value key = true ∧ env.in_form = false) := by
        simpa using hf
      rw [Bool.not_eq_true] at hf
      refine ⟨?_, ?_, ?_, fun hc => absurd (hc ▸ hf) (by decide), fun _ => ?_⟩ <;>
        simp [text_input, hctx, hf, hfN, SessionState.__setitem__, hfree,
          element_register_call]
  · by_cases hf : (decide (value ≠ PyVal.none) || c.session_state.is_new_value key) = true
    · have hfP : ¬value = PyVal.none ∨ c.session_state.is_new_value key = true := by
        simpa using hf
      refine ⟨?_, ?_, ?_, fun _ => ?_, fun hc => absurd (hc ▸ hf) (by decide)⟩
      · simp [checkbox, hctx, hf, hfP, SessionState.__setitem__, hfree,
          element_register_call]
      · simp [checkbox, hctx, hf, hfP, SessionState.__setitem__, hfree,
          element_register_call]
      · simp [checkbox, hctx, hf, hfP, SessionState.__setitem__, hfree,
          element_register_call]
      · simp [checkbox, hctx, hf, hfP, SessionState.__setitem__, hfree,
          element_register_call]
        rw [dget_dinsert]
        simp
    · have hfN : ¬(¬value = PyVal.none ∨ c.session_state.is_new_value key = true) := by
        simpa using hf
      have hfN1 : value = PyVal.none := by tauto
      have hfN2 : c.session_state.is_new_value key = false := by
        rcases Bool.eq_false_or_eq_true (c.session_state.is_new_value key) with h | h
        · exact absurd (Or.inr h) hfN
        · exact h
      rw [Bool.not_eq_true] at hf
      refine ⟨?_, ?_, ?_, fun hc => absurd (hc ▸ hf) (by decide), fun _ => ?_⟩ <;>
        simp [checkbox, hctx, hf, hfN, hfN1, hfN2, SessionState.__setitem__, hfree,
          element_register_call]

/-- Witness for C8 (amended): outside a form against a fresh session, a text
input with a supplied value gets no override (flag false), while a checkbox
with a supplied value gets the override with its resolved boolean. -/
theorem C8_force_set_amended_witness :
    (text_input plainEnv "movie" (PyVal.str "a") Option.none (some "k") "default"
        Option.none Option.none Option.none Option.none).proto.valueSet = false ∧
    (checkbox plainEnv "agree" (PyVal.bool true) "k2"
        Option.none Option.none Option.none Option.none).proto.valueSet = true ∧
    (checkbox plainEnv "agree" (PyVal.bool true) "k2"
        Option.none Option.none Option.none Option.none).proto.value = true := by
  have ht := C8_force_set_amended plainEnv
    ⟨[], WidgetStateManager.init, SessionState.init⟩ "movie" (PyVal.str "a") "k"
    rfl (by decide)
  have hc := C8_force_set_amended plainEnv
    ⟨[], WidgetStateManager.init, SessionState.init⟩ "agree" (PyVal.bool true) "k2"
    rfl (by decide)
  refine ⟨ht.1.2.2.1.trans (by decide), hc.2.2.2.1.trans (by decide), ?_⟩
  have hv := hc.2.2.2.2.1 (by decide)
  have hl : (match (checkbox plainEnv "agree" (PyVal.bool true) "k2"
      Option.none Option.none Option.none Option.none).ctx with
     | some c2 => (dget c2.session_state._new_state "k2").map pyBool
     | Option.none => Option.none) = some true := rfl
  rw [hl] at hv
  exact (Option.some.inj hv).symm
